import Mathlib

/-!
Verification of the AWS provisioning CLI (`src/ec2-build.py`).

The program is a thin gateway over the AWS control-plane API: each method of
`AWSManager` validates its arguments and then issues one or a short fixed
sequence of provider calls, catching `ClientError` and printing a message.

Shallow embedding: each method becomes a pure Lean function from an
environment `Env` (the provider's behaviour, the interactive confirmation
answer, the local filesystem, the process string-hash) to a `RunResult`
recording the sequence of provider calls issued, the lines printed, and the
returned value.  A provider call that the environment marks as failing raises
`ClientError` at the point it is issued: the call still appears in the trace
(it was made), and the rest of the `try` body is skipped.
-/

/-- Resource tag, as the `Key`/`Value` dictionaries in the source. -/
structure Tag where
  key : String
  value : String
deriving DecidableEq

/-- The fixed ownership marker the tool attaches to resources it creates. -/
def ownershipTag : Tag := ⟨"CreatedBy", "alon_tool"⟩

/-- Check performed by `list_s3_buckets`: a tag with key `CreatedBy` and
value `alon_tool` (source lines 130-131). -/
def isOwnershipTag (t : Tag) : Bool :=
  t.key == "CreatedBy" && t.value == "alon_tool"

/-- An EC2 `describe_instances` filter.  The source passes the dictionary
with name `tag:CreatedBy`; the `tag:` prefixed filter names are modelled
structurally as a tag key. -/
inductive Ec2Filter where
  | tagFilter (key : String) (vals : List String)
deriving DecidableEq

/-- A Route53 resource record set, as submitted by `manage_route53_record`. -/
structure ResourceRecordSet where
  name : String
  type : String
  ttl : Nat
  resourceRecords : List String
deriving DecidableEq

/-- A change in a Route53 `ChangeBatch`. -/
structure RouteChange where
  action : String
  recordSet : ResourceRecordSet
deriving DecidableEq

/-- A statement of an S3 bucket policy (the source builds this dictionary and
serialises it with `json.dumps`; the document is modelled structurally). -/
structure PolicyStatement where
  sid : String
  effect : String
  principal : String
  action : String
  resource : String
deriving DecidableEq

/-- An S3 bucket policy document. -/
structure BucketPolicy where
  version : String
  statements : List PolicyStatement
deriving DecidableEq

/-- The anonymous-GetObject policy `create_bucket` attaches for a public
bucket (source lines 97-108). -/
def publicReadPolicy (bucketName : String) : BucketPolicy :=
  ⟨"2012-10-17",
   [⟨"PublicReadGetObject", "Allow", "*", "s3:GetObject",
     "arn:aws:s3:::" ++ bucketName ++ "/*"⟩]⟩

/-- Whitespace as stripped by Python `str.strip`. -/
def isSpaceChar (c : Char) : Bool :=
  c == ' ' || c == '\t' || c == '\n' || c == '\r'

/-- Model of Python `s.strip().lower()` as applied to the confirmation
answer (source line 81): drop surrounding whitespace, lowercase the rest. -/
def pyStripLower (s : String) : String :=
  String.mk
    ((((s.data.dropWhile isSpaceChar).reverse.dropWhile isSpaceChar).reverse).map
      Char.toLower)

/-- The provider-side API calls the tool can issue, with their salient
parameters.  `changeTagsForResource` is part of the provider's API surface
(the only way to tag a Route53 hosted zone); the source never issues it. -/
inductive ProviderCall where
  | runInstances (amiId instanceType : String) (maxCount minCount : Nat)
      (subnetId : String) (groups : List String) (tags : List Tag)
  | describeInstances (filters : List Ec2Filter)
  | startInstances (instanceIds : List String)
  | stopInstances (instanceIds : List String)
  | createBucket (bucket : String)
  | putPublicAccessBlock (bucket : String)
      (blockPublicAcls ignorePublicAcls blockPublicPolicy restrictPublicBuckets : Bool)
  | putBucketPolicy (bucket : String) (policy : BucketPolicy)
  | putBucketTagging (bucket : String) (tagSet : List Tag)
  | listBuckets
  | getBucketTagging (bucket : String)
  | uploadPut (bucket : String) (objectKey : String)
  | createHostedZone (name : String) (callerReference : String)
  | changeResourceRecordSets (zoneId : String) (changes : List RouteChange)
  | changeTagsForResource (resourceType resourceId : String) (tags : List Tag)
deriving DecidableEq

/-- An EC2 instance as known to the provider (fixture element). -/
structure Ec2Instance where
  instanceId : String
  state : String
  tags : List Tag
deriving DecidableEq

/-- An S3 bucket as known to the provider (fixture element); its tag set is
what `get_bucket_tagging` returns for it. -/
structure S3Bucket where
  name : String
  tagSet : List Tag
deriving DecidableEq

/-- The environment of one process run: provider behaviour, provider-side
fixtures, the interactive confirmation answer, the local filesystem, and the
process string-hash used for `hash(domain_name)`. -/
structure Env where
  /-- Which issued provider calls raise `ClientError`. -/
  fails : ProviderCall → Bool
  /-- The `InstanceId` in a successful `run_instances` response. -/
  newInstanceId : String
  /-- Instances known to the provider. -/
  ec2Fixture : List Ec2Instance
  /-- Buckets known to the provider, with their tag sets. -/
  s3Fixture : List S3Bucket
  /-- The answer typed at the `input()` confirmation prompt. -/
  confirmInput : String
  /-- Which local file paths exist. -/
  fileExists : String → Bool
  /-- The process string-hash: Python `hash` on a `str`, fixed for one
  process but salted across processes. -/
  pyHash : String → Int

/-- Outcome of one method run: provider calls issued in order, lines
printed, and the value returned (methods that return `None` in the source
return a `Bool` that is `true` exactly when the `try` body ran to
completion). -/
structure RunResult (α : Type) where
  calls : List ProviderCall
  printed : List String
  ret : α
deriving DecidableEq

/-- Model of the provider semantics of one `describe_instances` filter: a
`tag:K` filter matches an instance having a tag with key `K` and a value
among the filter values. -/
def matchesFilter (inst : Ec2Instance) : Ec2Filter → Bool
  | .tagFilter key vals =>
      inst.tags.any (fun t => t.key == key && vals.contains t.value)

/-- Model of the provider semantics of `describe_instances`: the instances
of the fixture matching every filter. -/
def describeInstancesResult (fixture : List Ec2Instance)
    (filters : List Ec2Filter) : List Ec2Instance :=
  fixture.filter (fun inst => filters.all (matchesFilter inst))

/-- `AWSManager.create_ec2_instance` (source lines 14-46): rejects an
instance type outside the allow-list before any provider call, otherwise
issues `run_instances` with the fixed network placement and the ownership
tag, returning the new instance id. -/
def create_ec2_instance (env : Env)
    (instance_type : String := "t3.nano")
    (ami_id : String := "ami-0a0e5d9c7acc336f1") :
    RunResult (Option String) :=
  if ["t3.nano", "t4g.nano"].contains instance_type then
    let c := ProviderCall.runInstances ami_id instance_type 1 1
      "subnet-0532609ba3d9e75a5" ["sg-0bcf72bd953300830"] [ownershipTag]
    if env.fails c then
      ⟨[c], ["Error creating EC2 instance: ClientError"], none⟩
    else
      ⟨[c], ["Created EC2 instance: " ++ env.newInstanceId],
       some env.newInstanceId⟩
  else
    ⟨[], ["Invalid instance type: " ++ instance_type], none⟩

/-- The filter list `list_instances` passes to `describe_instances`
(source lines 51-53). -/
def listInstancesFilters : List Ec2Filter :=
  [.tagFilter "CreatedBy" ["alon_tool"]]

/-- `AWSManager.list_instances` (source lines 48-59): a single
`describe_instances` call filtered by the ownership tag; returns the
instances it prints. -/
def list_instances (env : Env) : RunResult (List Ec2Instance) :=
  let c := ProviderCall.describeInstances listInstancesFilters
  if env.fails c then
    ⟨[c], ["Error listing EC2 instances: ClientError"], []⟩
  else
    let surfaced := describeInstancesResult env.ec2Fixture listInstancesFilters
    ⟨[c],
     surfaced.map (fun i =>
       "Instance ID: " ++ i.instanceId ++ ", State: " ++ i.state),
     surfaced⟩

/-- `AWSManager.manage_instance` (source lines 61-73): rejects an action
outside start/stop before any provider call. -/
def manage_instance (env : Env) (action instance_id : String) :
    RunResult Bool :=
  if ["start", "stop"].contains action then
    if action == "start" then
      let c := ProviderCall.startInstances [instance_id]
      if env.fails c then
        ⟨[c], ["Error managing EC2 instance: ClientError"], false⟩
      else
        ⟨[c], ["Started EC2 instance: " ++ instance_id], true⟩
    else
      let c := ProviderCall.stopInstances [instance_id]
      if env.fails c then
        ⟨[c], ["Error managing EC2 instance: ClientError"], false⟩
      else
        ⟨[c], ["Stopped EC2 instance: " ++ instance_id], true⟩
  else
    ⟨[], ["Invalid action: " ++ action], false⟩

/-- `AWSManager.create_bucket` (source lines 76-122): creates the bucket
first; if `public`, asks the interactive confirmation and cancels unless the
stripped, lowercased answer is `yes`; on confirmation disables the four
public-access-block protections and attaches the anonymous-GetObject policy;
finally applies the ownership tag.  `ret = true` exactly when the `try`
body ran to completion (the success line was printed). -/
def create_bucket (env : Env) (bucket_name : String)
    (public : Bool := false) : RunResult Bool :=
  let cCreate := ProviderCall.createBucket bucket_name
  if env.fails cCreate then
    ⟨[cCreate], ["Error creating S3 bucket: ClientError"], false⟩
  else
    let cTag := ProviderCall.putBucketTagging bucket_name [ownershipTag]
    if public then
      if pyStripLower env.confirmInput == "yes" then
        let cPab := ProviderCall.putPublicAccessBlock bucket_name
          false false false false
        if env.fails cPab then
          ⟨[cCreate, cPab], ["Error creating S3 bucket: ClientError"], false⟩
        else
          let cPol := ProviderCall.putBucketPolicy bucket_name
            (publicReadPolicy bucket_name)
          if env.fails cPol then
            ⟨[cCreate, cPab, cPol],
             ["Error creating S3 bucket: ClientError"], false⟩
          else if env.fails cTag then
            ⟨[cCreate, cPab, cPol, cTag],
             ["Error creating S3 bucket: ClientError"], false⟩
          else
            ⟨[cCreate, cPab, cPol, cTag],
             ["Created S3 bucket: " ++ bucket_name], true⟩
      else
        ⟨[cCreate], ["creation of your s3 bucket is canceled"], false⟩
    else if env.fails cTag then
      ⟨[cCreate, cTag], ["Error creating S3 bucket: ClientError"], false⟩
    else
      ⟨[cCreate, cTag], ["Created S3 bucket: " ++ bucket_name], true⟩

/-- The per-bucket loop of `list_s3_buckets` (source lines 127-133): for
each bucket, issue `get_bucket_tagging`; if it raises, the loop aborts; else
surface the name when a tag matches the ownership marker.  Returns the calls
issued, the names surfaced, and whether the loop completed. -/
def listBucketsLoop (env : Env) :
    List S3Bucket → List ProviderCall × List String × Bool
  | [] => ([], [], true)
  | b :: rest =>
    let c := ProviderCall.getBucketTagging b.name
    if env.fails c then
      ([c], [], false)
    else
      let out := listBucketsLoop env rest
      (c :: out.1,
       (if b.tagSet.any isOwnershipTag then [b.name] else []) ++ out.2.1,
       out.2.2)

/-- `AWSManager.list_s3_buckets` (source lines 124-135): lists all buckets,
fetches the tags of each, and surfaces only those carrying the ownership
tag; returns the names it prints. -/
def list_s3_buckets (env : Env) : RunResult (List String) :=
  let cList := ProviderCall.listBuckets
  if env.fails cList then
    ⟨[cList], ["Error listing S3 buckets: ClientError"], []⟩
  else
    let out := listBucketsLoop env env.s3Fixture
    ⟨cList :: out.1,
     out.2.1.map (fun n => "Bucket Name: " ++ n) ++
       (if out.2.2 then [] else ["Error listing S3 buckets: ClientError"]),
     out.2.1⟩

/-- Outcome kinds of `upload_file_to_s3`. -/
inductive UploadOutcome where
  | ok
  | localFileMissing
  | remoteError
deriving DecidableEq

/-- `AWSManager.upload_file_to_s3` (source lines 137-146): the SDK upload
opens the local file first and raises `FileNotFoundError` when it is
missing, before any remote call; a remote failure raises `ClientError`. -/
def upload_file_to_s3 (env : Env)
    (file_path bucket_name object_key : String) : RunResult UploadOutcome :=
  if env.fileExists file_path then
    let c := ProviderCall.uploadPut bucket_name object_key
    if env.fails c then
      ⟨[c], ["Error uploading file to S3: ClientError"], .remoteError⟩
    else
      ⟨[c],
       ["Uploaded file " ++ file_path ++ " to bucket " ++ bucket_name ++
        " with key " ++ object_key], .ok⟩
  else
    ⟨[], ["File " ++ file_path ++ " not found"], .localFileMissing⟩

/-- `AWSManager.create_route53_zone` (source lines 149-157): one
`create_hosted_zone` call whose `CallerReference` is `str(hash(domain))`
under the process string-hash. -/
def create_route53_zone (env : Env) (domain_name : String) : RunResult Bool :=
  let c := ProviderCall.createHostedZone domain_name
    (toString (env.pyHash domain_name))
  if env.fails c then
    ⟨[c], ["Error creating Route53 hosted zone: ClientError"], false⟩
  else
    ⟨[c], ["Created Route53 hosted zone: " ++ domain_name], true⟩

/-- `AWSManager.manage_route53_record` (source lines 159-182): rejects any
action other than `create` before calling the provider; otherwise submits
one change batch with a single CREATE record set at TTL 60 and one value. -/
def manage_route53_record (env : Env)
    (zone_id action record_name record_type record_value : String) :
    RunResult Bool :=
  if action == "create" then
    let c := ProviderCall.changeResourceRecordSets zone_id
      [⟨"CREATE", ⟨record_name, record_type, 60, [record_value]⟩⟩]
    if env.fails c then
      ⟨[c], ["Error managing Route53 record: ClientError"], false⟩
    else
      ⟨[c], ["Created DNS record: " ++ record_name ++ " -> " ++ record_value],
       true⟩
  else
    ⟨[], ["Invalid action: " ++ action], false⟩

/-- The method names the `AWSManager` class defines (source lines 7-182). -/
def awsManagerMethods : List String :=
  ["create_ec2_instance", "list_instances", "manage_instance",
   "create_bucket", "list_s3_buckets", "upload_file_to_s3",
   "create_route53_zone", "manage_route53_record"]

/-- The parsed command-line arguments of `main` (source lines 186-207). -/
structure Args where
  resource : Option String
  action : Option String
  instance_type : String := "t3.nano"
  bucket_name : Option String := none
  public : Bool := false
  domain_name : Option String := none
  zone_id : Option String := none
  record_name : Option String := none
  record_type : String := "A"
  record_value : Option String := none
  instance_id : Option String := none
  file_path : Option String := none
  object_key : Option String := none
deriving DecidableEq

/-- What one branch of `main` does: call a manager method (after the
attribute lookup succeeded), raise `AttributeError` (the looked-up name is
not defined on the class), print a usage line, or fall through. -/
inductive DispatchOutcome where
  | invoked (method : String)
  | attributeError (missing : String)
  | usageMessage (msg : String)
  | fallthrough
deriving DecidableEq

/-- Python attribute lookup on the manager: calling a name the class does
not define raises `AttributeError` before any provider call. -/
def lookupMethod (n : String) : DispatchOutcome :=
  if awsManagerMethods.contains n then .invoked n else .attributeError n

/-- The dispatch of `main` (source lines 211-246), with the exact attribute
names the source writes at each branch. -/
def mainDispatch (args : Args) : DispatchOutcome :=
  if args.resource == some "ec2" then
    if args.action == some "create" then
      lookupMethod "create_ec2_instance"
    else if args.action == some "list" then
      lookupMethod "list_ec2_instances"
    else if (args.action == some "start" || args.action == some "stop")
        && args.instance_id.isSome then
      lookupMethod "manage_ec2_instance"
    else
      .usageMessage "For start or stop action, --instance_id is required."
  else if args.resource == some "s3" then
    if args.action == some "create" && args.bucket_name.isSome then
      lookupMethod "create_s3_bucket"
    else if args.action == some "list" then
      lookupMethod "list_s3_buckets"
    else if args.action == some "upload" && args.file_path.isSome
        && args.bucket_name.isSome && args.object_key.isSome then
      lookupMethod "upload_file_to_s3"
    else
      .usageMessage "For create action, --bucket_name is required."
  else if args.resource == some "route53" then
    if args.action == some "create" && args.domain_name.isSome then
      lookupMethod "create_route53_zone"
    else if args.action == some "create" && args.zone_id.isSome
        && args.record_name.isSome && args.record_value.isSome then
      lookupMethod "manage_route53_record"
    else
      .usageMessage "For create action, --domain_name or record flags are required."
  else
    .fallthrough

/-- A baseline environment: no provider call fails, the confirmation answer
is `yes`, no local file exists, and the process hash is the length. -/
def env0 : Env where
  fails := fun _ => false
  newInstanceId := "i-0abc123"
  ec2Fixture := []
  s3Fixture := []
  confirmInput := "yes"
  fileExists := fun _ => false
  pyHash := fun s => (s.length : Int)

/-- Like `env0` but the confirmation answer is `no`. -/
def envNo : Env := { env0 with confirmInput := "no" }

/-- Like `env0` but every provider call fails. -/
def envAllFail : Env := { env0 with fails := fun _ => true }

/-- A second process run: identical to `env0` except for the process
string-hash.  CPython salts `str` hashes with a fresh per-process seed
(absent `PYTHONHASHSEED`), so two runs of the CLI assign unrelated hash
values to the same domain string; this environment models such a run. -/
def envOtherProcess : Env :=
  { env0 with pyHash := fun s => (s.length : Int) + 42 }

/-- A tagged instance for the mixed fixture. -/
def taggedInst : Ec2Instance :=
  ⟨"i-tagged", "running", [⟨"CreatedBy", "alon_tool"⟩, ⟨"Name", "web"⟩]⟩

/-- An untagged instance for the mixed fixture. -/
def untaggedInst : Ec2Instance := ⟨"i-foreign", "stopped", [⟨"Name", "db"⟩]⟩

/-- A provider-side fixture mixing tagged and untagged resources. -/
def envMixed : Env :=
  { env0 with
    ec2Fixture := [taggedInst, untaggedInst]
    s3Fixture := [⟨"kept", [⟨"Team", "x"⟩, ⟨"CreatedBy", "alon_tool"⟩]⟩,
                  ⟨"foreign", [⟨"Team", "y"⟩]⟩,
                  ⟨"bare", []⟩] }

/-- Does a provider call attach the ownership tag to the resource it
touches? -/
def callAppliesOwnershipTag : ProviderCall → Bool
  | ProviderCall.runInstances _ _ _ _ _ _ tags => tags.any isOwnershipTag
  | ProviderCall.putBucketTagging _ tagSet => tagSet.any isOwnershipTag
  | ProviderCall.changeTagsForResource _ _ tags => tags.any isOwnershipTag
  | _ => false

/-- Is a call the public-access-block configuration call? -/
def isPabCall : ProviderCall → Bool
  | ProviderCall.putPublicAccessBlock _ _ _ _ _ => true
  | _ => false

/-- Is a call the bucket-policy attachment call? -/
def isPolicyCall : ProviderCall → Bool
  | ProviderCall.putBucketPolicy _ _ => true
  | _ => false

/-- Is a call the bucket-tagging call? -/
def isBucketTaggingCall : ProviderCall → Bool
  | ProviderCall.putBucketTagging _ _ => true
  | _ => false

/-- The `CallerReference` submitted by a `create_hosted_zone` call of a run,
if any. -/
def zoneCallerRef (r : RunResult Bool) : Option String :=
  r.calls.findSome? fun c =>
    match c with
    | ProviderCall.createHostedZone _ ref => some ref
    | _ => none

/-- C6: for every instance-type string outside the allow-list, the method
makes zero provider calls, reports the error, and returns no identifier. -/
theorem create_ec2_rejects_unknown_type (env : Env) (itype ami : String)
    (h : (["t3.nano", "t4g.nano"].contains itype) = false) :
    (create_ec2_instance env itype ami).calls = [] ∧
    (create_ec2_instance env itype ami).printed =
      ["Invalid instance type: " ++ itype] ∧
    (create_ec2_instance env itype ami).ret = none := by
  simp at h
  simp [create_ec2_instance, h]

/-- Witness for C6 at the concrete type `m5.large`. -/
theorem create_ec2_rejects_unknown_type_witness :
    (create_ec2_instance env0 "m5.large" "ami-0a0e5d9c7acc336f1").calls = [] ∧
    (create_ec2_instance env0 "m5.large" "ami-0a0e5d9c7acc336f1").printed =
      ["Invalid instance type: " ++ "m5.large"] ∧
    (create_ec2_instance env0 "m5.large" "ami-0a0e5d9c7acc336f1").ret = none :=
  create_ec2_rejects_unknown_type env0 "m5.large" "ami-0a0e5d9c7acc336f1"
    (by decide)

/-- C8: for a non-existent local file path the upload reports the
local-file-missing kind, not the remote kind, and issues no provider
call. -/
theorem upload_missing_file_local_error (env : Env) (p b k : String)
    (h : env.fileExists p = false) :
    (upload_file_to_s3 env p b k).calls = [] ∧
    (upload_file_to_s3 env p b k).ret = UploadOutcome.localFileMissing ∧
    (upload_file_to_s3 env p b k).printed = ["File " ++ p ++ " not found"] := by
  simp [upload_file_to_s3, h]

/-- Witness for C8 at a concrete missing path. -/
theorem upload_missing_file_local_error_witness :
    (upload_file_to_s3 env0 "ghost.txt" "site" "k.txt").calls = [] ∧
    (upload_file_to_s3 env0 "ghost.txt" "site" "k.txt").ret =
      UploadOutcome.localFileMissing ∧
    (upload_file_to_s3 env0 "ghost.txt" "site" "k.txt").printed =
      ["File " ++ "ghost.txt" ++ " not found"] :=
  upload_missing_file_local_error env0 "ghost.txt" "site" "k.txt" rfl

/-- C9: any action other than `create` makes zero provider calls and
reports the error; the `create` action submits exactly one record set at
TTL 60 with a single value. -/
theorem route53_record_action_gate (env : Env) (z a n t v : String) :
    (a ≠ "create" →
      (manage_route53_record env z a n t v).calls = [] ∧
      (manage_route53_record env z a n t v).printed =
        ["Invalid action: " ++ a]) ∧
    (a = "create" →
      (manage_route53_record env z a n t v).calls =
        [ProviderCall.changeResourceRecordSets z
          [⟨"CREATE", ⟨n, t, 60, [v]⟩⟩]]) := by
  constructor
  · intro h
    simp [manage_route53_record, h]
  · intro h
    subst h
    simp only [manage_route53_record, beq_self_eq_true, if_true]
    split <;> rfl

/-- Witness for C9 at the concrete actions `delete` and `create`. -/
theorem route53_record_action_gate_witness :
    ((manage_route53_record env0 "Z1" "delete" "a.example.com" "A"
        "1.2.3.4").calls = [] ∧
     (manage_route53_record env0 "Z1" "delete" "a.example.com" "A"
        "1.2.3.4").printed = ["Invalid action: " ++ "delete"]) ∧
    (manage_route53_record env0 "Z1" "create" "a.example.com" "A"
        "1.2.3.4").calls =
      [ProviderCall.changeResourceRecordSets "Z1"
        [⟨"CREATE", ⟨"a.example.com", "A", 60, ["1.2.3.4"]⟩⟩]] :=
  ⟨(route53_record_action_gate env0 "Z1" "delete" "a.example.com" "A"
      "1.2.3.4").1 (by decide),
   (route53_record_action_gate env0 "Z1" "create" "a.example.com" "A"
      "1.2.3.4").2 rfl⟩

/-- C2: the dispatch of `main` for `--resource ec2 --action list`, for
`--action start` with an instance id, and for `--resource s3 --action
create` with a bucket name dereferences the attribute names
`list_ec2_instances`, `manage_ec2_instance` and `create_s3_bucket`, none of
which `AWSManager` defines, so each invocation raises `AttributeError`
before any provider call. -/
theorem main_dispatch_attribute_errors :
    mainDispatch { resource := some "ec2", action := some "list" } =
      DispatchOutcome.attributeError "list_ec2_instances" ∧
    mainDispatch { resource := some "ec2", action := some "start",
                   instance_id := some "i-0abc123" } =
      DispatchOutcome.attributeError "manage_ec2_instance" ∧
    mainDispatch { resource := some "s3", action := some "create",
                   bucket_name := some "site" } =
      DispatchOutcome.attributeError "create_s3_bucket" := by decide

/-- The caller reference a `create_route53_zone` run submits is
`str(hash(domain))`. -/
theorem zoneCallerRef_create_route53_zone (env : Env) (d : String) :
    zoneCallerRef (create_route53_zone env d) =
      some (toString (env.pyHash d)) := by
  simp only [create_route53_zone, zoneCallerRef]
  split <;> simp [List.findSome?]

/-- C10, counterexample to the claim as stated: two `create_route53_zone`
calls with the same domain name, made in two process runs whose salted
string-hashes differ (everything else identical), submit different
`CallerReference` tokens — the token is not a deterministic function of
the domain name across calls. -/
theorem zone_caller_reference_counterexample :
    zoneCallerRef (create_route53_zone env0 "example.com") = some "11" ∧
    zoneCallerRef (create_route53_zone envOtherProcess "example.com") =
      some "53" ∧
    zoneCallerRef (create_route53_zone env0 "example.com") ≠
      zoneCallerRef (create_route53_zone envOtherProcess "example.com") := by
  decide

/-- C10, amended: the deduplication token is `str(hash(domain))` under the
process string-hash, so it is deterministic in the domain name only within
one process: two calls sharing the process hash and the domain name submit
the same `CallerReference`, whatever else differs between their runs;
across processes the salted hash can give the same domain different
tokens. -/
theorem zone_caller_reference_deterministic (env1 env2 : Env) (d1 d2 : String)
    (hh : env1.pyHash = env2.pyHash) (hd : d1 = d2) :
    zoneCallerRef (create_route53_zone env1 d1) =
      zoneCallerRef (create_route53_zone env2 d2) ∧
    zoneCallerRef (create_route53_zone env1 d1) =
      some (toString (env1.pyHash d1)) := by
  subst hd
  rw [zoneCallerRef_create_route53_zone, zoneCallerRef_create_route53_zone, hh]
  exact ⟨rfl, rfl⟩

/-- Witness for C10: two environments differing in every provider outcome
but sharing the hash submit the same token for `example.com`. -/
theorem zone_caller_reference_deterministic_witness :
    zoneCallerRef (create_route53_zone env0 "example.com") =
      zoneCallerRef (create_route53_zone envAllFail "example.com") ∧
    zoneCallerRef (create_route53_zone env0 "example.com") =
      some (toString (env0.pyHash "example.com")) :=
  zone_caller_reference_deterministic env0 envAllFail "example.com"
    "example.com" rfl rfl

/-- C3, counterexample to the claim as stated: with `public=True` and the
answer `no`, the run prints the cancellation line, yet a provider-side
mutation has occurred — the bucket-creation call was issued before the
prompt. -/
theorem public_bucket_cancel_counterexample :
    (create_bucket envNo "site" true).ret = false ∧
    (create_bucket envNo "site" true).printed =
      ["creation of your s3 bucket is canceled"] ∧
    ProviderCall.createBucket "site" ∈ (create_bucket envNo "site" true).calls := by
  decide

/-- C3, amended: with `public=True` and a non-`yes` confirmation the run
aborts with no further state change — the trace is exactly the
bucket-creation call issued before the prompt, and no public-access-block,
policy, or tagging call follows. -/
theorem public_bucket_cancel_no_further_calls (env : Env) (b : String)
    (h : pyStripLower env.confirmInput ≠ "yes") :
    (create_bucket env b true).calls = [ProviderCall.createBucket b] ∧
    (create_bucket env b true).ret = false := by
  have hbeq : (pyStripLower env.confirmInput == "yes") = false := by
    simpa using h
  simp only [create_bucket, hbeq, if_false, Bool.false_eq_true, if_true]
  split <;> exact ⟨rfl, rfl⟩

/-- Witness for the amended C3 at the concrete answer `no`. -/
theorem public_bucket_cancel_no_further_calls_witness :
    (create_bucket envNo "docs" true).calls =
      [ProviderCall.createBucket "docs"] ∧
    (create_bucket envNo "docs" true).ret = false :=
  public_bucket_cancel_no_further_calls envNo "docs" (by decide)

/-- C4: with `public=True` and a non-`yes` confirmation the run makes zero
`put_public_access_block` calls and zero `put_bucket_policy` calls. -/
theorem public_bucket_cancel_zero_public_calls (env : Env) (b : String)
    (h : pyStripLower env.confirmInput ≠ "yes") :
    List.countP isPabCall (create_bucket env b true).calls = 0 ∧
    List.countP isPolicyCall (create_bucket env b true).calls = 0 := by
  have hbeq : (pyStripLower env.confirmInput == "yes") = false := by
    simpa using h
  simp only [create_bucket, hbeq, if_false, Bool.false_eq_true, if_true]
  split <;> simp [isPabCall, isPolicyCall]

/-- Witness for C4 at the concrete answer `no`. -/
theorem public_bucket_cancel_zero_public_calls_witness :
    List.countP isPabCall (create_bucket envNo "media" true).calls = 0 ∧
    List.countP isPolicyCall (create_bucket envNo "media" true).calls = 0 :=
  public_bucket_cancel_zero_public_calls envNo "media" (by decide)

/-- C5: a bucket-tagging call is only ever the last provider call of a
`create_bucket` run; every run that completes (whatever the visibility)
ends with the ownership-tagging call; and a completed public run issues
exactly creation, public-access-block disablement (all four protections
false), the anonymous-GetObject policy, then the tag, in that order. -/
theorem create_bucket_tagging_last (env : Env) (b : String) (pub : Bool) :
    (create_bucket env b pub).calls.dropLast.all
        (fun c => !(isBucketTaggingCall c)) = true ∧
    ((create_bucket env b pub).ret = true →
      (create_bucket env b pub).calls.getLast? =
        some (ProviderCall.putBucketTagging b [ownershipTag])) ∧
    (pub = true → (create_bucket env b pub).ret = true →
      (create_bucket env b pub).calls =
        [ProviderCall.createBucket b,
         ProviderCall.putPublicAccessBlock b false false false false,
         ProviderCall.putBucketPolicy b (publicReadPolicy b),
         ProviderCall.putBucketTagging b [ownershipTag]]) := by
  simp only [create_bucket]
  split_ifs <;> simp_all [isBucketTaggingCall, List.getLast?]

/-- Witness for C5: a completed public creation with answer `yes`. -/
theorem create_bucket_tagging_last_witness :
    (create_bucket env0 "site" true).calls.dropLast.all
        (fun c => !(isBucketTaggingCall c)) = true ∧
    (create_bucket env0 "site" true).calls.getLast? =
      some (ProviderCall.putBucketTagging "site" [ownershipTag]) ∧
    (create_bucket env0 "site" true).calls =
      [ProviderCall.createBucket "site",
       ProviderCall.putPublicAccessBlock "site" false false false false,
       ProviderCall.putBucketPolicy "site" (publicReadPolicy "site"),
       ProviderCall.putBucketTagging "site" [ownershipTag]] :=
  ⟨(create_bucket_tagging_last env0 "site" true).1,
   (create_bucket_tagging_last env0 "site" true).2.1 (by decide),
   (create_bucket_tagging_last env0 "site" true).2.2 rfl (by decide)⟩

/-- C1, counterexample to the claim as stated: a fully successful
`create_route53_zone` run whose whole trace applies no ownership tag — the
hosted zone is created untagged. -/
theorem route53_zone_untagged_counterexample :
    (create_route53_zone env0 "example.com").ret = true ∧
    (create_route53_zone env0 "example.com").printed =
      ["Created Route53 hosted zone: example.com"] ∧
    (create_route53_zone env0 "example.com").calls ≠ [] ∧
    (create_route53_zone env0 "example.com").calls.all
      (fun c => !(callAppliesOwnershipTag c)) = true := by
  decide

/-- C1, amended: every successful `create_ec2_instance` run carries the
ownership tag on its creation call, every completed `create_bucket` run
issues the ownership-tagging call, and `create_route53_zone` never applies
an ownership tag to the hosted zone. -/
theorem created_resources_tagged_amended (env : Env)
    (itype ami b d : String) (pub : Bool) :
    ((create_ec2_instance env itype ami).ret.isSome = true →
      (create_ec2_instance env itype ami).calls.all
        callAppliesOwnershipTag = true) ∧
    ((create_bucket env b pub).ret = true →
      ProviderCall.putBucketTagging b [ownershipTag] ∈
        (create_bucket env b pub).calls) ∧
    (create_route53_zone env d).calls.all
      (fun c => !(callAppliesOwnershipTag c)) = true := by
  refine ⟨?_, ?_, ?_⟩
  · simp only [create_ec2_instance]
    split_ifs <;>
      simp [callAppliesOwnershipTag, isOwnershipTag, ownershipTag]
  · simp only [create_bucket]
    split_ifs <;> simp
  · simp only [create_route53_zone]
    split <;> simp [callAppliesOwnershipTag]

/-- Witness for the amended C1: a successful instance creation, a completed
private bucket creation, and a zone creation, all under `env0`. -/
theorem created_resources_tagged_amended_witness :
    (create_ec2_instance env0 "t3.nano" "ami-0a0e5d9c7acc336f1").calls.all
      callAppliesOwnershipTag = true ∧
    ProviderCall.putBucketTagging "logs" [ownershipTag] ∈
      (create_bucket env0 "logs" false).calls ∧
    (create_route53_zone env0 "example.org").calls.all
      (fun c => !(callAppliesOwnershipTag c)) = true :=
  ⟨(created_resources_tagged_amended env0 "t3.nano" "ami-0a0e5d9c7acc336f1"
      "logs" "example.org" false).1 (by decide),
   (created_resources_tagged_amended env0 "t3.nano" "ami-0a0e5d9c7acc336f1"
      "logs" "example.org" false).2.1 (by decide),
   (created_resources_tagged_amended env0 "t3.nano" "ami-0a0e5d9c7acc336f1"
      "logs" "example.org" false).2.2⟩

/-- The boolean tag check of the source coincides with equality with the
ownership marker. -/
theorem isOwnershipTag_eq_true_iff (t : Tag) :
    isOwnershipTag t = true ↔ t = ownershipTag := by
  cases t
  simp [isOwnershipTag, ownershipTag, Tag.mk.injEq]

/-- Every instance the modelled provider returns for the ownership-tag
filter carries the ownership tag. -/
theorem mem_describeInstancesResult_tagged (fixture : List Ec2Instance)
    (i : Ec2Instance)
    (hi : i ∈ describeInstancesResult fixture listInstancesFilters) :
    ownershipTag ∈ i.tags := by
  simp only [describeInstancesResult, List.mem_filter, listInstancesFilters,
    List.all_cons, List.all_nil, Bool.and_true, matchesFilter,
    List.any_eq_true, Bool.and_eq_true, beq_iff_eq] at hi
  obtain ⟨-, t, ht, hkey, hval⟩ := hi
  simp only [List.contains_eq_any_beq, List.any_cons, List.any_nil,
    Bool.or_false, beq_iff_eq] at hval
  have : t = ownershipTag := by
    cases t
    simp only [ownershipTag, Tag.mk.injEq]
    exact ⟨hkey, hval⟩
  exact this ▸ ht

/-- Every name the per-bucket loop surfaces comes from a fixture bucket
carrying the ownership tag. -/
theorem mem_listBucketsLoop_tagged (env : Env) (bs : List S3Bucket)
    (n : String) (hn : n ∈ (listBucketsLoop env bs).2.1) :
    ∃ b, b ∈ bs ∧ b.name = n ∧ ownershipTag ∈ b.tagSet := by
  induction bs with
  | nil => simp [listBucketsLoop] at hn
  | cons b rest ih =>
    simp only [listBucketsLoop] at hn
    by_cases hf : env.fails (ProviderCall.getBucketTagging b.name) = true
    · simp [hf] at hn
    · simp only [hf, Bool.false_eq_true, if_false, if_true,
        List.mem_append] at hn
      rcases hn with hn | hn
      · by_cases htag : b.tagSet.any isOwnershipTag = true
        · simp only [htag, if_true, List.mem_singleton] at hn
          subst hn
          obtain ⟨t, ht, hown⟩ := List.any_eq_true.mp htag
          exact ⟨b, List.mem_cons_self b rest,  rfl,
            (isOwnershipTag_eq_true_iff t).mp hown ▸ ht⟩
        · simp [htag] at hn
      · obtain ⟨b2, hb2, hname, hown⟩ := ih hn
        exact ⟨b2, List.mem_cons_of_mem b hb2, hname, hown⟩

/-- C7: `list_instances` and `list_s3_buckets` surface only resources
carrying the ownership tag, for every provider-side fixture mixing tagged
and untagged resources. -/
theorem list_operations_only_tagged (env : Env) :
    (∀ i ∈ (list_instances env).ret, ownershipTag ∈ i.tags) ∧
    (∀ n ∈ (list_s3_buckets env).ret,
      ∃ b, b ∈ env.s3Fixture ∧ b.name = n ∧ ownershipTag ∈ b.tagSet) := by
  constructor
  · intro i hi
    simp only [list_instances] at hi
    split at hi
    · simp at hi
    · exact mem_describeInstancesResult_tagged env.ec2Fixture i hi
  · intro n hn
    simp only [list_s3_buckets] at hn
    split at hn
    · simp at hn
    · exact mem_listBucketsLoop_tagged env env.s3Fixture n hn

/-- Witness for C7 on a mixed fixture: the tagged instance and the tagged
bucket are surfaced and both carry the marker. -/
theorem list_operations_only_tagged_witness :
    ownershipTag ∈ taggedInst.tags ∧
    ∃ b, b ∈ envMixed.s3Fixture ∧ b.name = "kept" ∧
      ownershipTag ∈ b.tagSet :=
  ⟨(list_operations_only_tagged envMixed).1 taggedInst (by decide),
   (list_operations_only_tagged envMixed).2 "kept" (by decide)⟩
